import Mathlib

/-!
Verification development for the delta-neutral volume-farming bot
(ASTER perp/spot).  The Python sources are embedded shallowly: pure
functions become Lean functions over `ℚ`/`ℤ`/`ℕ` (Python floats are
modelled by exact rationals; the quantities involved are far from the
decision boundaries of every branch and floor, so the exact-rational
model agrees with IEEE doubles on all inputs used below), dict-returning
fallible functions become `Option`-valued functions, and the stateful
strategy object becomes a record with explicit transition functions.
-/

namespace DNBot

/-- `truncate` from `src/utils.py`: truncates a value to `precision`
decimal places without rounding.  For `precision = 0` this is `⌊v⌋`;
otherwise `⌊v * 10^p⌋ / 10^p`.  (The Python guard `precision < 0` is
handled by taking `p : ℕ`.) -/
def truncate (v : ℚ) (p : ℕ) : ℚ := ⌊v * 10 ^ p⌋ / 10 ^ p

/-- Result dictionary of `DeltaNeutralLogic.calculate_position_size`
(`src/strategy_logic.py`), with one field per dict key (the two legacy
aliases `spot_quantity`/`perp_quantity` duplicate other fields and are
omitted). -/
structure PositionSizing where
  spot_quantity_to_buy : ℚ
  total_perp_quantity_to_short : ℚ
  new_spot_capital_required : ℚ
  perp_capital_required : ℚ
  total_capital_deployed : ℚ
  existing_spot_usd_utilized : ℚ
  leverage_used : ℚ
  is_proper_delta_neutral : Bool
  deriving DecidableEq

/-- `DeltaNeutralLogic.calculate_position_size` from
`src/strategy_logic.py` lines 187-234.  Returns `none` where the Python
returns the empty dict `{}` (the `spot_price <= 0` early return). -/
def calculate_position_size (total_usd_capital spot_price : ℚ)
    (leverage : ℚ) (existing_spot_usd : ℚ) : Option PositionSizing :=
  if spot_price ≤ 0 then none
  else
    let total_perp_quantity_to_short := total_usd_capital / spot_price
    let new_spot_capital_required := max 0 (total_usd_capital - existing_spot_usd)
    let spot_quantity_to_buy := new_spot_capital_required / spot_price
    some
      { spot_quantity_to_buy := spot_quantity_to_buy
        total_perp_quantity_to_short := total_perp_quantity_to_short
        new_spot_capital_required := new_spot_capital_required
        perp_capital_required := total_usd_capital / leverage
        total_capital_deployed := total_usd_capital
        existing_spot_usd_utilized := existing_spot_usd
        leverage_used := leverage
        is_proper_delta_neutral := leverage == 1 }

/-- `VolumeFarmingStrategy._calculate_safe_stoploss` from
`src/volume_farming_strategy.py` lines 170-212.  `leverage` is a Python
int; the result is `float(math.floor(max_stop_pnl * 100))`, modelled as
the (integer-valued) rational `⌊max_stop_pnl * 100⌋`. -/
def calculate_safe_stoploss (leverage : ℕ) (maintenance_margin safety_buffer : ℚ) : ℚ :=
  let L : ℚ := leverage
  let m := maintenance_margin
  let b := safety_buffer
  let s_max := (1 + 1 / L) / (1 + m) - 1 - b
  let perp_fraction := L / (L + 1)
  let max_stop_pnl := -s_max * perp_fraction
  let max_stop_pct : ℤ := ⌊max_stop_pnl * 100⌋
  (max_stop_pct : ℚ)

/-- The stop PnL percentage before the final `math.floor`, i.e.
`max_stop_pnl * 100` of `_calculate_safe_stoploss`. -/
def stop_pnl_pct (leverage : ℕ) (maintenance_margin safety_buffer : ℚ) : ℚ :=
  let L : ℚ := leverage
  let s_max := (1 + 1 / L) / (1 + maintenance_margin) - 1 - safety_buffer
  let pnl := -s_max * (L / (L + 1)) * 100
  pnl

/-- The PnL percentage (relative to total deployed capital) at the
liquidation price, as computed by the companion script
`src/calculate_safe_stoploss.py`: `liq_distance = (1 + 1/L)/(1 + m) - 1`
converted through `calculate_pnl_percentage_short`
(`-price_change * L/(L+1)`), times 100. -/
def liquidation_pnl_pct (leverage : ℕ) (maintenance_margin : ℚ) : ℚ :=
  let L : ℚ := leverage
  let pnl := -((1 + 1 / L) / (1 + maintenance_margin) - 1) * (L / (L + 1)) * 100
  pnl

/-- The sizing steps 4-6 of `AsterApiManager.prepare_and_execute_dn_position`
(`src/aster_api_manager.py` lines 918-948).  `precision` is the number of
decimals of the coarser of the two `LOT_SIZE` step sizes
(`abs(coarser_step_size.as_tuple().exponent)`), so truncating to
`precision` decimals is rounding down to the coarser lot step.
Returns `some (spot_qty_to_buy, final_perp_qty)` on success and `none`
on the failure paths (sizing dict empty, or the first truncated perp
quantity is `≤ 0`).  The surrounding code (existing-short check,
leverage setting, order placement) does not alter these two
quantities. -/
def dn_position_sizing (spot_price existing_spot_quantity capital_to_deploy : ℚ)
    (precision : ℕ) (leverage : ℚ) : Option (ℚ × ℚ) :=
  match calculate_position_size capital_to_deploy spot_price leverage
      (existing_spot_quantity * spot_price) with
  | none => none
  | some sizing =>
    let ideal_perp_qty := sizing.total_perp_quantity_to_short
    let first_perp_qty := truncate ideal_perp_qty precision
    if first_perp_qty ≤ 0 then none
    else
      let spot_qty_needed := max 0 (first_perp_qty - existing_spot_quantity)
      let spot_qty_to_buy := truncate spot_qty_needed precision
      let actual_total_spot := existing_spot_quantity + spot_qty_to_buy
      let final_perp_qty := truncate actual_total_spot precision
      some (spot_qty_to_buy, final_perp_qty)

/-- Result of `AsterApiManager.get_funding_rate_ma` as consumed by the
scanner: the moving-average rate and the effective MA APR. -/
structure MAData where
  ma_rate : ℚ
  effective_ma_apr : ℚ
  deriving DecidableEq

/-- One entry of `AsterApiManager.get_all_funding_rates`: symbol,
current/next funding rate, its APR and the funding frequency per day. -/
structure RateData where
  symbol : String
  rate : ℚ
  apr : ℚ
  funding_freq : ℤ
  deriving DecidableEq

/-- A best bid/ask book ticker.  `none` at the call sites stands for a
failed fetch, missing dict, or missing/falsy price fields — every such
case makes the Python spread check include the symbol. -/
structure BookTicker where
  bidPrice : ℚ
  askPrice : ℚ
  deriving DecidableEq

/-- An entry of the scanner's `funding_rates` list in
`VolumeFarmingStrategy._find_best_funding_opportunity`. -/
structure Candidate where
  symbol : String
  funding_rate : ℚ
  current_rate : ℚ
  effective_apr : ℚ
  funding_freq : ℤ
  using_ma : Bool
  deriving DecidableEq

/-- The market data consumed by one scanner pass, assumed static during
the pass (the code fetches it piecemeal over the network). -/
structure MarketSnapshot where
  available_symbols : List String
  ma_data : String → Option MAData
  current_rates : List RateData
  volumes : String → ℚ
  spot_ticker : String → Option BookTicker
  perp_ticker : String → Option BookTicker

/-- The Python dict comprehension
`{r['symbol']: r for r in current_rates_data}` (later entries win). -/
def ratesMap (rates : List RateData) (s : String) : Option RateData :=
  rates.reverse.find? (fun r => r.symbol == s)

/-- Scanner MA-mode per-symbol candidate
(`volume_farming_strategy.py` lines 915-941): skip when MA data is
missing; take the current rate from the rates map (0 when absent); skip
when the current rate is negative; decide on the MA rate/APR. -/
def maCandidate (snap : MarketSnapshot) (s : String) : Option Candidate :=
  match snap.ma_data s with
  | none => none
  | some ma =>
    let cri := ratesMap snap.current_rates s
    let current_rate := match cri with | some r => r.rate | none => 0
    if current_rate < 0 then none
    else some
      { symbol := s
        funding_rate := ma.ma_rate
        current_rate := current_rate
        effective_apr := ma.effective_ma_apr
        funding_freq := match cri with | some r => r.funding_freq | none => 3
        using_ma := true }

/-- Scanner instantaneous-mode per-entry candidate
(`volume_farming_strategy.py` lines 958-977): skip negative current
rates; decide on the current rate and its APR. -/
def instCandidate (r : RateData) : Option Candidate :=
  if r.rate < 0 then none
  else some
    { symbol := r.symbol
      funding_rate := r.rate
      current_rate := r.rate
      effective_apr := r.apr
      funding_freq := r.funding_freq
      using_ma := false }

/-- The scanner's `funding_rates` list in MA mode. -/
def buildCandidatesMA (snap : MarketSnapshot) : List Candidate :=
  snap.available_symbols.filterMap (maCandidate snap)

/-- The scanner's `funding_rates` list in instantaneous mode. -/
def buildCandidatesInst (snap : MarketSnapshot) : List Candidate :=
  snap.current_rates.filterMap instCandidate

/-- The spot-perp spread check (`volume_farming_strategy.py` lines
1024-1073).  A symbol passes when either ticker is unavailable (the
code includes symbols it cannot check) or when
`|(perp_mid - spot_mid) / spot_mid * 100| ≤ 0.15`.  A zero `spot_mid`
raises `ZeroDivisionError` in Python, which the `except` branch turns
into inclusion; in `ℚ` division by zero yields 0 and the bound holds,
so both models include the symbol. -/
def passesSpread (snap : MarketSnapshot) (s : String) : Bool :=
  match snap.spot_ticker s, snap.perp_ticker s with
  | some sp, some pp =>
    let spot_mid := (sp.bidPrice + sp.askPrice) / 2
    let perp_mid := (pp.bidPrice + pp.askPrice) / 2
    let spread_pct := |(perp_mid - spot_mid) / spot_mid * 100|
    decide (spread_pct ≤ 15 / 100)
  | _, _ => true

/-- Stable insertion keeping larger effective APR first; an element is
placed before the first entry whose APR it matches or exceeds, which
reproduces Python's stable `sort(key=..., reverse=True)`. -/
def insertByAprDesc (c : Candidate) : List Candidate → List Candidate
  | [] => [c]
  | d :: t =>
    if d.effective_apr ≤ c.effective_apr then c :: d :: t
    else d :: insertByAprDesc c t

/-- Stable sort by effective APR, descending. -/
def sortByAprDesc : List Candidate → List Candidate
  | [] => []
  | c :: t => insertByAprDesc c (sortByAprDesc t)

/-- The `high_volume_pairs` list of the scanner: symbols of the
universe whose combined 24h volume reaches the $250M threshold
(`volume_farming_strategy.py` lines 991-1000). -/
def highVolumePairs (snap : MarketSnapshot) : List String :=
  snap.available_symbols.filter (fun s => 250000000 ≤ snap.volumes s)

/-- The `spread_filtered_pairs` list: high-volume symbols that pass the
spot-perp spread check. -/
def spreadFilteredPairs (snap : MarketSnapshot) : List String :=
  (highVolumePairs snap).filter (passesSpread snap)

/-- The `all_candidates` list: funding-rate candidates whose symbol
survived the volume and spread filters. -/
def allCandidates (funding_rates : List Candidate) (snap : MarketSnapshot) :
    List Candidate :=
  funding_rates.filter (fun c => (spreadFilteredPairs snap).contains c.symbol)

/-- The final `candidates` list: `all_candidates` sorted by effective
APR descending, keeping only entries at or above the APR floor. -/
def rankedCandidates (funding_rates : List Candidate) (min_funding_apr : ℚ)
    (snap : MarketSnapshot) : List Candidate :=
  (sortByAprDesc (allCandidates funding_rates snap)).filter
    (fun c => min_funding_apr ≤ c.effective_apr)

/-- The mode-independent tail of
`VolumeFarmingStrategy._find_best_funding_opportunity`
(`volume_farming_strategy.py` lines 983-1199): the early `return None`
branches on empty intermediate lists, then the best-ranked candidate. -/
def scannerSelect (funding_rates : List Candidate) (min_funding_apr : ℚ)
    (snap : MarketSnapshot) : Option Candidate :=
  if snap.available_symbols.isEmpty then none
  else if (highVolumePairs snap).isEmpty then none
  else if (spreadFilteredPairs snap).isEmpty then none
  else if (allCandidates funding_rates snap).isEmpty then none
  else (rankedCandidates funding_rates min_funding_apr snap).head?

/-- `VolumeFarmingStrategy._find_best_funding_opportunity`
(`volume_farming_strategy.py` lines 877-1203) as a pure function of one
market snapshot: build the mode-specific candidate list (filtering
negative *current* rates, with each mode's early `return None` on
missing data), filter the symbol universe by 24h volume (≥ $250M) and
spot-perp spread (≤ 0.15%), keep candidates that survived both, sort by
effective APR descending, drop those below `min_funding_apr`, and
return the first survivor. -/
def findBestFundingOpportunity (use_funding_ma : Bool) (min_funding_apr : ℚ)
    (snap : MarketSnapshot) : Option Candidate :=
  match use_funding_ma with
  | true =>
    if snap.available_symbols.isEmpty then none
    else scannerSelect (buildCandidatesMA snap) min_funding_apr snap
  | false =>
    if snap.current_rates.isEmpty then none
    else scannerSelect (buildCandidatesInst snap) min_funding_apr snap

/-- A concrete market snapshot whose single symbol has a *zero* current
funding rate but a positive moving-average rate (MA APR 54.75 =
0.001 × 3 × 365 × 100 / 2, the `effective_ma_apr` formula of
`calculate_funding_rate_ma`), $300M volume and zero spread. -/
def snapZeroRate : MarketSnapshot :=
  { available_symbols := ["AAAUSDT"]
    ma_data := fun _ => some { ma_rate := 1 / 1000, effective_ma_apr := 1095 / 20 }
    current_rates := [{ symbol := "AAAUSDT", rate := 0, apr := 0, funding_freq := 3 }]
    volumes := fun _ => 300000000
    spot_ticker := fun _ => some { bidPrice := 100, askPrice := 100 }
    perp_ticker := fun _ => some { bidPrice := 100, askPrice := 100 } }

/-- The `current_position` dict of `VolumeFarmingStrategy` (see
`_open_position` lines 1317-1325): symbol, deployed capital, decision
funding rate, effective APR, the two leg quantities and the entry
price.  Every reachable position dict carries its `symbol` key, so the
`'symbol' not in ...` validation of `_load_state` always passes. -/
structure Position where
  symbol : String
  capital : ℚ
  funding_rate : ℚ
  effective_apr : ℚ
  spot_qty : ℚ
  perp_qty : ℚ
  entry_price : ℚ
  deriving DecidableEq

/-- The persisted fields of `VolumeFarmingStrategy` (the attributes
written by `_save_state`, lines 301-325).  Python `datetime` values are
modelled as abstract `ℕ` instants; `datetime.fromisoformat` inverts
`datetime.isoformat`, so serialization keeps the instant. -/
structure StrategyState where
  current_position : Option Position
  position_opened_at : Option ℕ
  position_leverage : Option ℤ
  total_funding_received : ℚ
  entry_fees_paid : ℚ
  cycle_count : ℤ
  total_profit_loss : ℚ
  total_positions_opened : ℤ
  total_positions_closed : ℤ
  initial_portfolio_value_usdt : Option ℚ
  initial_portfolio_timestamp : Option ℕ
  deriving DecidableEq

/-- The JSON document produced by `_save_state`: every persisted field
(null encoded as `none`) plus `last_updated`.  `json.dump`/`json.load`
round-trips Python floats, ints, strings and nulls exactly. -/
structure SavedStateDoc where
  current_position : Option Position
  position_opened_at : Option ℕ
  position_leverage : Option ℤ
  total_funding_received : ℚ
  entry_fees_paid : ℚ
  cycle_count : ℤ
  total_profit_loss : ℚ
  total_positions_opened : ℤ
  total_positions_closed : ℤ
  initial_portfolio_value_usdt : Option ℚ
  initial_portfolio_timestamp : Option ℕ
  last_updated : ℕ
  deriving DecidableEq

/-- The field defaults set by `VolumeFarmingStrategy.__init__`
(lines 108-123) before `_load_state` runs. -/
def freshState : StrategyState :=
  { current_position := none
    position_opened_at := none
    position_leverage := none
    total_funding_received := 0
    entry_fees_paid := 0
    cycle_count := 0
    total_profit_loss := 0
    total_positions_opened := 0
    total_positions_closed := 0
    initial_portfolio_value_usdt := none
    initial_portfolio_timestamp := none }

/-- `VolumeFarmingStrategy._save_state` (lines 301-325): the JSON
document it writes. -/
def save_state (s : StrategyState) (now : ℕ) : SavedStateDoc :=
  { current_position := s.current_position
    position_opened_at := s.position_opened_at
    position_leverage := s.position_leverage
    total_funding_received := s.total_funding_received
    entry_fees_paid := s.entry_fees_paid
    cycle_count := s.cycle_count
    total_profit_loss := s.total_profit_loss
    total_positions_opened := s.total_positions_opened
    total_positions_closed := s.total_positions_closed
    initial_portfolio_value_usdt := s.initial_portfolio_value_usdt
    initial_portfolio_timestamp := s.initial_portfolio_timestamp
    last_updated := now }

/-- `VolumeFarmingStrategy._load_state` (lines 214-299) applied to a
well-formed saved document, starting from the `__init__` defaults:

* `position_leverage` is loaded only when a position was loaded
  (lines 249-260), otherwise it is forced to `none`;
* the portfolio baseline block (lines 263-273) calls
  `float(state.get('initial_portfolio_value_usdt'))`; on a null value
  this raises `TypeError` and the handler resets *both* baseline fields
  to `None`, so a null value wipes the timestamp too;
* `position_opened_at` (lines 276-285) is parsed only when a position
  was loaded; on a saved document the ISO string always parses. -/
def load_state (doc : SavedStateDoc) : StrategyState :=
  let current_position := doc.current_position
  let position_leverage :=
    match current_position with
    | some _ => doc.position_leverage
    | none => none
  let baseline_pair : Option ℚ × Option ℕ :=
    match doc.initial_portfolio_value_usdt with
    | none => (none, none)
    | some v => (some v, doc.initial_portfolio_timestamp)
  let position_opened_at :=
    match current_position with
    | some _ => doc.position_opened_at
    | none => none
  { current_position := current_position
    position_opened_at := position_opened_at
    position_leverage := position_leverage
    total_funding_received := doc.total_funding_received
    entry_fees_paid := doc.entry_fees_paid
    cycle_count := doc.cycle_count
    total_profit_loss := doc.total_profit_loss
    total_positions_opened := doc.total_positions_opened
    total_positions_closed := doc.total_positions_closed
    initial_portfolio_value_usdt := baseline_pair.1
    initial_portfolio_timestamp := baseline_pair.2 }

/-- A concrete reachable state with an open position and a captured
baseline, used to witness the save/load round trip. -/
def sampleState : StrategyState :=
  { current_position := some
      { symbol := "BTCUSDT", capital := 1000, funding_rate := 1 / 10000
        effective_apr := 20, spot_qty := 1 / 100, perp_qty := 1 / 100
        entry_price := 50000 }
    position_opened_at := some 1700000000
    position_leverage := some 2
    total_funding_received := 3 / 2
    entry_fees_paid := 1
    cycle_count := 4
    total_profit_loss := 7 / 2
    total_positions_opened := 5
    total_positions_closed := 4
    initial_portfolio_value_usdt := some 2000
    initial_portfolio_timestamp := some 1690000000 }

/-- `VolumeFarmingStrategy._capture_initial_portfolio` (lines 327-356):
if `_get_current_portfolio_value` returned `None` the baseline is left
untouched (early `return`); otherwise the returned value — with **no**
positivity check — is stored together with the capture time. -/
def capture_initial_portfolio (s : StrategyState) (computed_value : Option ℚ)
    (now : ℕ) : StrategyState :=
  match computed_value with
  | none => s
  | some v =>
    { s with
      initial_portfolio_value_usdt := some v
      initial_portfolio_timestamp := some now }

/-- The baseline-capture step of `VolumeFarmingStrategy.run`
(lines 708-710): `_capture_initial_portfolio` is invoked only when the
baseline is still `None`. -/
def startupBaselineCapture (s : StrategyState) (computed_value : Option ℚ)
    (now : ℕ) : StrategyState :=
  match s.initial_portfolio_value_usdt with
  | none => capture_initial_portfolio s computed_value now
  | some _ => s

/-- Abstract file-system operations, enough to express "write to a
temporary file, then rename it over the target". -/
inductive FsOp where
  | openWrite (path : String) (content : String)
  | rename (src : String) (dst : String)
  deriving DecidableEq

/-- The file-system operations performed by
`VolumeFarmingStrategy._save_state` (lines 319-320): a single
`open(self.state_file, 'w')` followed by `json.dump` — one direct write
to the state path, no temporary file and no rename. -/
def save_state_ops (state_file : String) (doc : String) : List FsOp :=
  [FsOp.openWrite state_file doc]

/-- Whether an operation trace renames some file onto `p`. -/
def renamesOnto (ops : List FsOp) (p : String) : Bool :=
  ops.any fun op =>
    match op with
    | FsOp.rename _ dst => dst == p
    | _ => false

/-- Whether an operation trace opens `p` itself for writing (so an
interruption mid-write can leave `p` partially written). -/
def writesDirectlyTo (ops : List FsOp) (p : String) : Bool :=
  ops.any fun op =>
    match op with
    | FsOp.openWrite q _ => q == p
    | _ => false

/-- The capital gate of `VolumeFarmingStrategy._open_position`
(lines 1276-1296): the deployable capital is
`min(spot_usdt, perp_usdt * leverage) * capital_fraction`, and the open
is aborted (insufficient capital, early `return`) exactly when that
value is below `1.0` dollars. -/
def open_position_capital (spot_usdt perp_usdt : ℚ) (leverage : ℕ)
    (capital_fraction : ℚ) : Option ℚ :=
  let max_position_from_spot := spot_usdt
  let max_position_from_perp := perp_usdt * (leverage : ℚ)
  let max_position_size := min max_position_from_spot max_position_from_perp
  let capital_to_deploy := max_position_size * capital_fraction
  if capital_to_deploy < 1 then none else some capital_to_deploy

/-- Python's built-in `round` to an integer: round half to even
(banker's rounding). -/
def pythonRound (q : ℚ) : ℤ :=
  let f := ⌊q⌋
  let r := q - f
  if r < 1 / 2 then f
  else if 1 / 2 < r then f + 1
  else if f % 2 = 0 then f else f + 1

/-- The `time_diffs` list of `detect_funding_interval` (lines 282-287):
`abs(t1 - t2) / (1000 * 3600)` hours for each pair of consecutive
funding timestamps (milliseconds). -/
def fundingTimeDiffsHours (fundingTimes : List ℤ) : List ℚ :=
  List.zipWith (fun t1 t2 => |(t1 : ℚ) - (t2 : ℚ)| / 3600000)
    fundingTimes fundingTimes.tail

/-- The values of a list in order of first appearance, each once
(`collections.Counter` iteration order). -/
def firstUniques : List ℤ → List ℤ
  | [] => []
  | x :: xs => x :: firstUniques (xs.filter (fun y => y ≠ x))
termination_by l => l.length
decreasing_by
  simp only [List.length_cons]
  exact Nat.lt_succ_of_le (List.length_filter_le _ _)

/-- `Counter(l).most_common(1)`: a value of maximal multiplicity.  Ties
go to the earliest first appearance, matching Python's stable
descending sort over `Counter`'s first-insertion iteration order. -/
def mostCommon (l : List ℤ) : Option ℤ :=
  (firstUniques l).foldl
    (fun best x =>
      match best with
      | none => some x
      | some b => if l.count b < l.count x then some x else some b)
    none

/-- The history fallback of `detect_funding_interval` (lines 274-301):
fewer than 2 history entries default to 3 payments/day; otherwise the
most common rounded consecutive gap, when positive, yields
`int(24 / interval_hours)` payments/day, and a non-positive modal gap
falls through to the default 3. -/
def detectIntervalFromHistory (fundingTimes : List ℤ) : ℤ :=
  if fundingTimes.length < 2 then 3
  else
    let rounded := (fundingTimeDiffsHours fundingTimes).map pythonRound
    match mostCommon rounded with
    | some h => if 0 < h then Int.tdiv 24 h else 3
    | none => 3

/-- `AsterApiManager.detect_funding_interval`
(`src/aster_api_manager.py` lines 249-304) for one uncached call.
`advertised` is `int(funding_info['fundingIntervalHours'])` when the
endpoint supplied the field, `none` otherwise; when positive it decides
the result as `int(24 / interval_hours)` (`Int.tdiv` truncates toward
zero like Python `int()` on a non-negative quotient), else the
historical fallback runs.  The `except` handler's every-error default
of 3 lies outside this pure model and is noted with the claim. -/
def detect_funding_interval (advertised : Option ℤ) (fundingTimes : List ℤ) : ℤ :=
  match advertised with
  | some h =>
    if 0 < h then Int.tdiv 24 h else detectIntervalFromHistory fundingTimes
  | none => detectIntervalFromHistory fundingTimes

end DNBot

namespace DNBot

/-- The truncated value times `10^p` is the integer `⌊v * 10^p⌋`. -/
theorem truncate_mul_pow (v : ℚ) (p : ℕ) :
    truncate v p * 10 ^ p = (⌊v * 10 ^ p⌋ : ℚ) := by
  have h : (10 : ℚ) ^ p ≠ 0 := by positivity
  field_simp [truncate]

/-- A value aligned to the `10^(-p)` grid is a fixed point of `truncate`. -/
theorem truncate_eq_self_of_int (v : ℚ) (p : ℕ) (n : ℤ)
    (h : v * 10 ^ p = (n : ℚ)) : truncate v p = v := by
  have hp : (10 : ℚ) ^ p ≠ 0 := by positivity
  have hv : v = (n : ℚ) / 10 ^ p := by
    field_simp
    linarith [h]
  rw [truncate, h, Int.floor_intCast, hv]

/-- Adding a grid-aligned value commutes with truncation: if
`truncate e p = e` then `truncate (e + truncate y p) p = e + truncate y p`. -/
theorem truncate_add_truncate (e y : ℚ) (p : ℕ) (he : truncate e p = e) :
    truncate (e + truncate y p) p = e + truncate y p := by
  have h1 : e * 10 ^ p = ((⌊e * 10 ^ p⌋ : ℤ) : ℚ) := by
    conv_lhs => rw [← he]
    exact truncate_mul_pow e p
  have h2 : truncate y p * 10 ^ p = ((⌊y * 10 ^ p⌋ : ℤ) : ℚ) := truncate_mul_pow y p
  have h3 : (e + truncate y p) * 10 ^ p =
      ((⌊e * 10 ^ p⌋ : ℚ) + (⌊y * 10 ^ p⌋ : ℚ)) := by
    rw [add_mul]
    linarith [h1, h2]
  refine truncate_eq_self_of_int _ p (⌊e * 10 ^ p⌋ + ⌊y * 10 ^ p⌋) ?_
  rw [h3]
  push_cast
  ring

end DNBot

namespace DNBot

/-- C10: for `spot_price ≤ 0` the sizing returns the empty dict, and for
positive prices the perp short equals `capital / price` and the spot buy
equals `max 0 (capital - existing) / price`. -/
theorem calculate_position_size_spec (c price lev ex : ℚ) :
    (price ≤ 0 → calculate_position_size c price lev ex = none) ∧
    (0 < price → ∃ r, calculate_position_size c price lev ex = some r ∧
      r.total_perp_quantity_to_short = c / price ∧
      r.spot_quantity_to_buy = max 0 (c - ex) / price) := by
  constructor
  · intro h
    simp [calculate_position_size, h]
  · intro h
    unfold calculate_position_size
    rw [if_neg (not_le.mpr h)]
    exact ⟨_, rfl, rfl, rfl⟩

/-- Witness for C10 at a concrete input: capital 100, price 10,
existing spot 30 gives a perp short of 10 and a spot buy of 7. -/
theorem calculate_position_size_spec_witness :
    ∃ r, calculate_position_size 100 10 1 30 = some r ∧
      r.total_perp_quantity_to_short = (100 : ℚ) / 10 ∧
      r.spot_quantity_to_buy = max 0 ((100 : ℚ) - 30) / 10 :=
  (calculate_position_size_spec 100 10 1 30).2 (by norm_num)

/-- C2 counterexample: with the default maintenance margin `0.005` and
safety buffer `0.007`, `_calculate_safe_stoploss 1` returns `-50`, not
the `-8` the claim states (and leverage 2 gives `-33`, not `-16`). -/
theorem stoploss_values_counterexample :
    calculate_safe_stoploss 1 (5 / 1000) (7 / 1000) ≠ -8 ∧
    calculate_safe_stoploss 2 (5 / 1000) (7 / 1000) ≠ -16 := by
  constructor <;> norm_num [calculate_safe_stoploss]

/-- C2 amended: with defaults `m = 0.005`, `b = 0.007` the stop-loss is
the negative integer percentage `-50` at leverage 1, `-33` at leverage 2
and `-24` at leverage 3. -/
theorem stoploss_values :
    calculate_safe_stoploss 1 (5 / 1000) (7 / 1000) = -50 ∧
    calculate_safe_stoploss 2 (5 / 1000) (7 / 1000) = -33 ∧
    calculate_safe_stoploss 3 (5 / 1000) (7 / 1000) = -24 := by
  refine ⟨?_, ?_, ?_⟩ <;> norm_num [calculate_safe_stoploss]

/-- C3 counterexample: at the default parameters the stop-loss values
are *not* monotone non-increasing in the leverage
(`f 1 = -50 < -33 = f 2`), and at leverage 1 the returned stop is not
above the liquidation PnL percentage by at least
`b * L/(L+1) * 100 = 0.35` points — it is strictly *below* the
liquidation PnL percentage. -/
theorem stoploss_monotone_counterexample :
    calculate_safe_stoploss 1 (5 / 1000) (7 / 1000) <
      calculate_safe_stoploss 2 (5 / 1000) (7 / 1000) ∧
    calculate_safe_stoploss 1 (5 / 1000) (7 / 1000) <
      liquidation_pnl_pct 1 (5 / 1000) + (7 / 1000) * (1 / 2) * 100 ∧
    calculate_safe_stoploss 1 (5 / 1000) (7 / 1000) <
      liquidation_pnl_pct 1 (5 / 1000) := by
  refine ⟨?_, ?_, ?_⟩ <;>
    norm_num [calculate_safe_stoploss, liquidation_pnl_pct]

/-- C3 amended: over leverage 1, 2, 3 with the defaults the stop-loss is
monotone non-DEcreasing; the stop PnL *before* the final `math.floor`
exceeds the liquidation PnL percentage by exactly
`b * L/(L+1) * 100` points at every leverage; but the floored value is
above the liquidation PnL only at leverage 3 (by less than the buffer),
and falls below it at leverage 1 and 2. -/
theorem stoploss_monotone_amended :
    calculate_safe_stoploss 1 (5 / 1000) (7 / 1000) ≤
      calculate_safe_stoploss 2 (5 / 1000) (7 / 1000) ∧
    calculate_safe_stoploss 2 (5 / 1000) (7 / 1000) ≤
      calculate_safe_stoploss 3 (5 / 1000) (7 / 1000) ∧
    stop_pnl_pct 1 (5 / 1000) (7 / 1000) =
      liquidation_pnl_pct 1 (5 / 1000) + (7 / 1000) * (1 / 2) * 100 ∧
    stop_pnl_pct 2 (5 / 1000) (7 / 1000) =
      liquidation_pnl_pct 2 (5 / 1000) + (7 / 1000) * (2 / 3) * 100 ∧
    stop_pnl_pct 3 (5 / 1000) (7 / 1000) =
      liquidation_pnl_pct 3 (5 / 1000) + (7 / 1000) * (3 / 4) * 100 ∧
    liquidation_pnl_pct 3 (5 / 1000) <
      calculate_safe_stoploss 3 (5 / 1000) (7 / 1000) ∧
    calculate_safe_stoploss 2 (5 / 1000) (7 / 1000) <
      liquidation_pnl_pct 2 (5 / 1000) := by
  refine ⟨?_, ?_, ?_, ?_, ?_, ?_, ?_⟩ <;>
    norm_num [calculate_safe_stoploss, stop_pnl_pct, liquidation_pnl_pct]

/-- C1 counterexample: with spot price 1, an existing spot holding of
0.5 that is not aligned to the (coarser) lot step of 1 (`precision` 0)
and capital 10, the sizing buys 9 spot and shorts 9 perp, so
`spot_buy_qty + existing_holding = 9.5 ≠ 9 = short_sell_qty`: the
claimed invariant fails. -/
theorem dn_sizing_legs_counterexample :
    dn_position_sizing 1 (1 / 2) 10 0 1 = some (9, 9) ∧
    (9 : ℚ) + 1 / 2 ≠ 9 := by
  constructor
  · norm_num [dn_position_sizing, calculate_position_size, truncate]
  · norm_num

/-- C1 amended: on every successful sizing the final perp short equals
the *truncation to the coarser lot step* of
`existing_holding + spot_buy_qty`; in particular whenever the existing
holding is itself a multiple of the coarser step the two legs satisfy
the exact invariant `existing_holding + spot_buy_qty = short_sell_qty`. -/
theorem dn_sizing_legs_match (price e c : ℚ) (p : ℕ) (lev : ℚ) (buy final : ℚ)
    (h : dn_position_sizing price e c p lev = some (buy, final)) :
    final = truncate (e + buy) p ∧ (truncate e p = e → e + buy = final) := by
  unfold dn_position_sizing at h
  cases hcs : calculate_position_size c price lev (e * price) with
  | none => rw [hcs] at h; exact absurd h (by simp)
  | some sizing =>
    rw [hcs] at h
    by_cases hle : truncate sizing.total_perp_quantity_to_short p ≤ 0
    · simp only [hle, if_true] at h
      exact absurd h (by simp)
    · simp only [hle, if_false, Option.some.injEq, Prod.mk.injEq] at h
      obtain ⟨hb, hf⟩ := h
      subst hb
      subst hf
      refine ⟨rfl, fun he => ?_⟩
      exact (truncate_add_truncate e _ p he).symm

/-- Witness for the amended C1 at a concrete input: price 100, no
existing holding, capital 1000, precision 2 gives legs (10, 10). -/
theorem dn_sizing_legs_match_witness :
    (10 : ℚ) = truncate (0 + 10) 2 ∧
    (truncate (0 : ℚ) 2 = 0 → (0 : ℚ) + 10 = 10) :=
  dn_sizing_legs_match 100 0 1000 2 1 10 10
    (by norm_num [dn_position_sizing, calculate_position_size, truncate])

/-- Membership through `insertByAprDesc`. -/
theorem mem_insertByAprDesc {x c : Candidate} {l : List Candidate}
    (h : x ∈ insertByAprDesc c l) : x = c ∨ x ∈ l := by
  induction l with
  | nil =>
    rw [insertByAprDesc] at h
    exact Or.inl (List.mem_singleton.mp h)
  | cons d t ih =>
    by_cases hc : d.effective_apr ≤ c.effective_apr
    · rw [insertByAprDesc, if_pos hc] at h
      exact List.mem_cons.mp h
    · rw [insertByAprDesc, if_neg hc] at h
      rcases List.mem_cons.mp h with h | h
      · exact Or.inr (h ▸ List.mem_cons_self d t)
      · rcases ih h with h' | h'
        · exact Or.inl h'
        · exact Or.inr (List.mem_cons_of_mem d h')

/-- Membership through `sortByAprDesc`. -/
theorem mem_sortByAprDesc {x : Candidate} {l : List Candidate}
    (h : x ∈ sortByAprDesc l) : x ∈ l := by
  induction l with
  | nil => rw [sortByAprDesc] at h; exact absurd h (List.not_mem_nil x)
  | cons c t ih =>
    rw [sortByAprDesc] at h
    rcases mem_insertByAprDesc h with h | h
    · exact h ▸ List.mem_cons_self c t
    · exact List.mem_cons_of_mem c (ih h)

/-- An MA-mode candidate always carries a non-negative current rate:
the builder drops negative current rates and defaults a missing rate
to 0. -/
theorem maCandidate_current_rate_nonneg {snap : MarketSnapshot} {s : String}
    {c : Candidate} (h : maCandidate snap s = some c) : 0 ≤ c.current_rate := by
  unfold maCandidate at h
  cases hma : snap.ma_data s with
  | none => rw [hma] at h; exact absurd h (by simp)
  | some ma =>
    rw [hma] at h
    dsimp only at h
    split at h
    · exact absurd h (by simp)
    · rename_i hr
      obtain rfl := Option.some.injEq _ _ ▸ h
      simpa using le_of_not_lt hr

/-- An instantaneous-mode candidate always carries a non-negative
current rate. -/
theorem instCandidate_current_rate_nonneg {r : RateData} {c : Candidate}
    (h : instCandidate r = some c) : 0 ≤ c.current_rate := by
  unfold instCandidate at h
  split at h
  · exact absurd h (by simp)
  · rename_i hr
    obtain rfl := Option.some.injEq _ _ ▸ h
    simpa using le_of_not_lt hr

/-- The head of a list is a member. -/
theorem mem_of_head?_eq_some {α : Type} {l : List α} {a : α}
    (h : l.head? = some a) : a ∈ l := by
  cases l with
  | nil => exact Option.noConfusion h
  | cons x xs =>
    have hx : x = a := by simpa using h
    exact hx ▸ List.mem_cons_self x xs

/-- A candidate selected by the filtering tail of the scanner comes
from the mode-specific `funding_rates` list. -/
theorem scannerSelect_mem {funding_rates : List Candidate} {min_funding_apr : ℚ}
    {snap : MarketSnapshot} {c : Candidate}
    (h : scannerSelect funding_rates min_funding_apr snap = some c) :
    c ∈ funding_rates := by
  unfold scannerSelect at h
  split at h
  · exact Option.noConfusion h
  · split at h
    · exact Option.noConfusion h
    · split at h
      · exact Option.noConfusion h
      · split at h
        · exact Option.noConfusion h
        · have h1 : c ∈ rankedCandidates funding_rates min_funding_apr snap :=
            mem_of_head?_eq_some h
          unfold rankedCandidates at h1
          have h2 := mem_sortByAprDesc (List.mem_of_mem_filter h1)
          unfold allCandidates at h2
          exact List.mem_of_mem_filter h2

/-- C4 amended: in both modes, every opportunity emitted by the scanner
has a *non-negative* current funding rate (the code only filters
strictly negative current rates, so a current rate of exactly zero can
be emitted — see the counterexample). -/
theorem scanner_current_rate_nonneg (use_funding_ma : Bool) (min_funding_apr : ℚ)
    (snap : MarketSnapshot) (c : Candidate)
    (h : findBestFundingOpportunity use_funding_ma min_funding_apr snap = some c) :
    0 ≤ c.current_rate := by
  cases use_funding_ma with
  | true =>
    unfold findBestFundingOpportunity at h
    dsimp only at h
    split at h
    · exact Option.noConfusion h
    · obtain ⟨s, _, hs⟩ := List.mem_filterMap.mp (scannerSelect_mem h)
      exact maCandidate_current_rate_nonneg hs
  | false =>
    unfold findBestFundingOpportunity at h
    dsimp only at h
    split at h
    · exact Option.noConfusion h
    · obtain ⟨r, _, hr⟩ := List.mem_filterMap.mp (scannerSelect_mem h)
      exact instCandidate_current_rate_nonneg hr

/-- C4 counterexample: on `snapZeroRate` the scanner (MA mode, APR
floor 15) emits an opportunity whose current funding rate is exactly 0,
i.e. not strictly positive, even though its MA rate is positive. -/
theorem scanner_zero_rate_counterexample :
    (findBestFundingOpportunity true 15 snapZeroRate).map Candidate.current_rate
      = some 0 := by
  norm_num [findBestFundingOpportunity, scannerSelect, snapZeroRate,
    buildCandidatesMA, maCandidate, ratesMap, rankedCandidates, allCandidates,
    spreadFilteredPairs, highVolumePairs, passesSpread, sortByAprDesc,
    insertByAprDesc, List.filterMap, List.filter, List.find?]

/-- Witness for the amended C4: the concrete emitted opportunity of
`snapZeroRate` has a non-negative current rate. -/
theorem scanner_current_rate_nonneg_witness :
    (0 : ℚ) ≤ (Candidate.mk "AAAUSDT" (1 / 1000) 0 (1095 / 20) 3 true).current_rate :=
  scanner_current_rate_nonneg true 15 snapZeroRate _ (by
    norm_num [findBestFundingOpportunity, scannerSelect, snapZeroRate,
      buildCandidatesMA, maCandidate, ratesMap, rankedCandidates, allCandidates,
      spreadFilteredPairs, highVolumePairs, passesSpread, sortByAprDesc,
      insertByAprDesc, List.filterMap, List.filter, List.find?])

/-- C5 counterexample: starting from a fresh state (baseline `None`), a
startup capture whose portfolio-value computation returns exactly 0
*sets* the baseline (to 0) instead of leaving it null: the code has no
positivity guard. -/
theorem baseline_zero_counterexample :
    (startupBaselineCapture freshState (some 0) 0).initial_portfolio_value_usdt
      ≠ none := by
  simp [startupBaselineCapture, capture_initial_portfolio, freshState]

/-- C5 amended: the baseline is written only while it is null, and it
receives exactly the computed portfolio value — any non-`None` value
including 0; once the baseline is set, the startup capture step leaves
the whole state untouched, and a save/load cycle preserves a set
baseline. -/
theorem baseline_capture_spec (s : StrategyState) (computed_value : Option ℚ)
    (now : ℕ) :
    (s.initial_portfolio_value_usdt = none →
      (startupBaselineCapture s computed_value now).initial_portfolio_value_usdt
        = computed_value) ∧
    (s.initial_portfolio_value_usdt ≠ none →
      startupBaselineCapture s computed_value now = s) ∧
    (s.initial_portfolio_value_usdt ≠ none →
      (load_state (save_state s now)).initial_portfolio_value_usdt
        = s.initial_portfolio_value_usdt) := by
  refine ⟨?_, ?_, ?_⟩
  · intro h
    unfold startupBaselineCapture
    rw [h]
    cases computed_value with
    | none => simpa [capture_initial_portfolio] using h
    | some v => simp [capture_initial_portfolio]
  · intro h
    unfold startupBaselineCapture
    cases hb : s.initial_portfolio_value_usdt with
    | none => exact absurd hb h
    | some v => rfl
  · intro h
    cases hb : s.initial_portfolio_value_usdt with
    | none => exact absurd hb h
    | some v => simp [load_state, save_state, hb]

/-- Witness for the amended C5: on the fresh state a capture returning
0 stores 0, and on a state with baseline 2000 the capture step is the
identity. -/
theorem baseline_capture_spec_witness :
    (startupBaselineCapture freshState (some 0) 0).initial_portfolio_value_usdt
      = some 0 ∧
    startupBaselineCapture sampleState (some 7) 9 = sampleState :=
  ⟨(baseline_capture_spec freshState (some 0) 0).1 rfl,
   (baseline_capture_spec sampleState (some 7) 9).2.1 (by simp [sampleState])⟩

/-- C6 counterexample: the operation trace of `_save_state` contains no
rename onto the state path — the claimed temp-file-plus-rename pattern
is absent. -/
theorem save_state_no_rename_counterexample :
    renamesOnto
      (save_state_ops "volume_farming_state.json" "doc")
      "volume_farming_state.json" = false := by
  rfl

/-- C6 amended: `_save_state` performs exactly one direct
`open(state_file, 'w')` write of the document to the state path itself
and never renames anything onto it, so an interruption mid-write can
leave the state file partially written (the write is not atomic). -/
theorem save_state_direct_write (state_file doc : String) :
    save_state_ops state_file doc = [FsOp.openWrite state_file doc] ∧
    writesDirectlyTo (save_state_ops state_file doc) state_file = true ∧
    renamesOnto (save_state_ops state_file doc) state_file = false := by
  refine ⟨rfl, ?_, rfl⟩
  simp [writesDirectlyTo, save_state_ops]

/-- Witness for the amended C6 at the concrete state path. -/
theorem save_state_direct_write_witness :
    save_state_ops "volume_farming_state.json" "doc"
      = [FsOp.openWrite "volume_farming_state.json" "doc"] ∧
    writesDirectlyTo (save_state_ops "volume_farming_state.json" "doc")
      "volume_farming_state.json" = true ∧
    renamesOnto (save_state_ops "volume_farming_state.json" "doc")
      "volume_farming_state.json" = false :=
  save_state_direct_write "volume_farming_state.json" "doc"

/-- C7 counterexample: with $5 in each wallet, leverage 1 and capital
fraction 1 the open step *proceeds* with a deployable capital of $5,
which is below the claimed $10 floor — the actual floor is $1. -/
theorem open_position_floor_counterexample :
    open_position_capital 5 5 1 1 = some 5 ∧ (5 : ℚ) < 10 := by
  constructor
  · norm_num [open_position_capital]
  · norm_num

/-- C7 amended: the open step aborts with an insufficient-capital error
exactly when `min(spot, perp * leverage) * capital_fraction` is below
$1; when it proceeds, the deployed capital equals that quantity and is
at least $1. -/
theorem open_position_floor (spot perp : ℚ) (lev : ℕ) (frac : ℚ) :
    (min spot (perp * (lev : ℚ)) * frac < 1 →
      open_position_capital spot perp lev frac = none) ∧
    (∀ q, open_position_capital spot perp lev frac = some q →
      q = min spot (perp * (lev : ℚ)) * frac ∧ 1 ≤ q) := by
  constructor
  · intro h
    simp [open_position_capital, h]
  · intro q hq
    unfold open_position_capital at hq
    dsimp only at hq
    split at hq
    · exact Option.noConfusion hq
    · rename_i hge
      have hq' : min spot (perp * (lev : ℚ)) * frac = q := by
        simpa using hq
      exact ⟨hq'.symm, hq' ▸ le_of_not_lt hge⟩

/-- Witness for the amended C7: at balances (5, 5), leverage 1 and
fraction 1 the deployed capital is exactly `min 5 (5*1) * 1 = 5 ≥ 1`. -/
theorem open_position_floor_witness :
    (5 : ℚ) = min 5 (5 * ((1 : ℕ) : ℚ)) * 1 ∧ (1 : ℚ) ≤ 5 :=
  (open_position_floor 5 5 1 1).2 5 (by norm_num [open_position_capital])

/-- C8: saving then loading restores every persisted field, for every
state satisfying the code's own cross-field invariants (a cleared
position clears the leverage and open-time with it — `_close_current_position`
lines 1595-1599 and `_reconcile_position_state` lines 604-608 — and the
baseline value and timestamp are set together —
`_capture_initial_portfolio` lines 345-346). -/
theorem save_load_roundtrip (s : StrategyState) (now : ℕ)
    (h1 : s.current_position = none →
      s.position_leverage = none ∧ s.position_opened_at = none)
    (h2 : s.initial_portfolio_value_usdt = none →
      s.initial_portfolio_timestamp = none) :
    load_state (save_state s now) = s := by
  obtain ⟨cp, oa, pl, tfr, efp, cc, tpl, tpo, tpc, ipv, ipt⟩ := s
  cases cp with
  | none =>
    obtain ⟨hl, ho⟩ := h1 rfl
    dsimp only at hl ho
    subst hl
    subst ho
    cases ipv with
    | none =>
      have ht := h2 rfl
      dsimp only at ht
      subst ht
      rfl
    | some v => rfl
  | some pos =>
    cases ipv with
    | none =>
      have ht := h2 rfl
      dsimp only at ht
      subst ht
      rfl
    | some v => rfl

/-- Witness for C8: the round trip at a concrete reachable state with
an open position and a captured baseline. -/
theorem save_load_roundtrip_witness :
    load_state (save_state sampleState 1234) = sampleState :=
  save_load_roundtrip sampleState 1234
    (fun h => absurd h (by simp [sampleState]))
    (fun h => absurd h (by simp [sampleState]))

/-- C9: the detected funding frequency is `int(24 / h)` whenever the
advertised `fundingIntervalHours` `h` is present and positive; with no
(positive) advertised interval and fewer than 2 history entries it is
the default 3 per day (8-hour interval); and otherwise it follows the
most common rounded difference `d` of consecutive historical funding
timestamps whenever that modal difference is positive. -/
theorem detect_funding_interval_spec (advertised : Option ℤ)
    (fundingTimes : List ℤ) :
    (∀ h, advertised = some h → 0 < h →
      detect_funding_interval advertised fundingTimes = Int.tdiv 24 h) ∧
    ((advertised = none ∨ ∃ h, advertised = some h ∧ h ≤ 0) →
      fundingTimes.length < 2 →
      detect_funding_interval advertised fundingTimes = 3) ∧
    ((advertised = none ∨ ∃ h, advertised = some h ∧ h ≤ 0) →
      2 ≤ fundingTimes.length →
      ∀ d, mostCommon ((fundingTimeDiffsHours fundingTimes).map pythonRound)
          = some d → 0 < d →
        detect_funding_interval advertised fundingTimes = Int.tdiv 24 d) := by
  refine ⟨?_, ?_, ?_⟩
  · rintro h rfl hpos
    simp [detect_funding_interval, hpos]
  · rintro (rfl | ⟨h, rfl, hle⟩) hlen
    · simp [detect_funding_interval, detectIntervalFromHistory, hlen]
    · simp [detect_funding_interval, not_lt.mpr hle, detectIntervalFromHistory,
        hlen]
  · rintro (rfl | ⟨h, rfl, hle⟩) hlen d hd hdpos
    · simp [detect_funding_interval, detectIntervalFromHistory,
        not_lt.mpr hlen, hd, hdpos]
    · simp [detect_funding_interval, not_lt.mpr hle, detectIntervalFromHistory,
        not_lt.mpr hlen, hd, hdpos]

/-- Witness for C9 exercising all three clauses concretely: an
advertised 8-hour interval yields 3 payments/day; an empty history with
no advertised interval yields the default 3; and an 8-hour-spaced
3-entry history yields `24 / 8 = 3` via the modal difference. -/
theorem detect_funding_interval_spec_witness :
    detect_funding_interval (some 8) [] = Int.tdiv 24 8 ∧
    detect_funding_interval none [] = 3 ∧
    detect_funding_interval none [57600000, 28800000, 0] = Int.tdiv 24 8 :=
  ⟨(detect_funding_interval_spec (some 8) []).1 8 rfl (by norm_num),
   (detect_funding_interval_spec none []).2.1 (Or.inl rfl) (by norm_num),
   (detect_funding_interval_spec none [57600000, 28800000, 0]).2.2
     (Or.inl rfl) (by norm_num) 8
     (by norm_num [mostCommon, firstUniques, fundingTimeDiffsHours, pythonRound,
       List.count, List.zipWith, List.foldl, List.filter])
     (by norm_num)⟩

end DNBot
